import Mathlib

/-!
Verification of the signal-derivation pipeline of the finbert options API.

The Rust sources (src/main.rs, src/alpaca_data.rs, src/types.rs) are shallowly
embedded below.  Conventions of the embedding:

* `f64` values are modelled as exact rationals (`ℚ`); `u64`/`usize` as `ℕ`;
  Rust strings as `String` or `List Char` (ASCII contract keys are manipulated
  by byte offsets in the source, which coincide with character offsets on the
  ASCII domain of the data).
* A Rust computation that can panic is modelled with `RunResult`:
  `RunResult.crash` marks a panic (out-of-bounds slice / array index),
  `RunResult.value a` a normal return.
* Wall-clock dependent subcomputations are passed as explicit parameters:
  `dateDays` stands for the chrono date parse + day difference against today
  inside `calculate_time_to_expiry`, `risk_free_rate` for
  `get_dynamic_risk_free_rate()`, `sqrt_time_scale` for the floating point
  `(time_to_expiry / 365.0).sqrt()`, `sqrt_total` for
  `(total_signals as f64).sqrt()`, and `greeks` for the transcendental
  Black-Scholes block `calculate_option_greeks` (no claim depends on the
  numeric value of the Greeks).
* `fdiv` models an `f64` division that produces a non-finite value (NaN or
  infinity) exactly when the denominator is zero: the non-finite outcome is
  `none`.
-/

set_option maxRecDepth 100000

/-- Outcome of a Rust computation that may panic: `crash` models a panic,
`value a` a normal return of `a`. -/
inductive RunResult (α : Type) where
  | crash : RunResult α
  | value (a : α) : RunResult α
deriving DecidableEq, Repr

/-- The decimal digit character for `n < 10` (as produced by Rust integer
formatting); arbitrary for `n ≥ 10`, which never occurs in this development. -/
def digitChar (n : ℕ) : Char :=
  match n with
  | 0 => '0' | 1 => '1' | 2 => '2' | 3 => '3' | 4 => '4'
  | 5 => '5' | 6 => '6' | 7 => '7' | 8 => '8' | 9 => '9'
  | _ => '*'

/-- Numeric value of the decimal digits of `s` (only meaningful when every
character of `s` is an ASCII digit). -/
def digitsToNat (s : List Char) : ℕ :=
  s.foldl (fun a c => 10 * a + (c.toNat - 48)) 0

/-- Strip one leading ASCII plus sign, as Rust `str::parse::<u32>` accepts. -/
def stripPlus (s : List Char) : List Char :=
  match s with
  | [] => []
  | c :: r => if c = '+' then r else c :: r

/-- Model of Rust `str::parse::<u32>()`: an optional leading plus sign, then a
non-empty run of ASCII digits whose value fits in a `u32`. -/
def parseU32? (s : List Char) : Option ℕ :=
  let t := stripPlus s
  if t ≠ [] ∧ t.all Char.isDigit ∧ digitsToNat t < 2 ^ 32 then some (digitsToNat t) else none

/-- Zero-padded decimal rendering of `n` to exactly `w` digits, as produced by
a Rust format specifier with zero-padded minimum width `w` on inputs
`n < 10 ^ w`. -/
def padNum : ℕ → ℕ → List Char
  | 0, _ => []
  | w + 1, n => padNum w (n / 10) ++ [digitChar (n % 10)]

/-- The last `n` characters of `l` (Rust `&s[s.len()-n..]`). -/
def lastN (n : ℕ) (l : List Char) : List Char :=
  l.drop (l.length - n)

/-- The maximal trailing run of ASCII digits of `l`, in order (the loop over
`contract_key.chars().rev()` in `parse_strike_price_from_contract_key`). -/
def trailingDigits (l : List Char) : List Char :=
  (l.reverse.takeWhile Char.isDigit).reverse

/-- `parse_strike_price_from_contract_key`, src/alpaca_data.rs lines 602-658.
Tries the last 8, 7 and 6 characters as an integer strike in thousandths when
the key has at least 15 characters, then falls back to the maximal trailing
digit run with magnitude-inferred scaling, and finally returns 0. -/
def parse_strike_price_from_contract_key (contract_key : List Char) : ℚ :=
  let fallback : ℚ :=
    let numeric_end := trailingDigits contract_key
    if numeric_end ≠ [] then
      match parseU32? numeric_end with
      | some strike_int =>
        if 1000000 < strike_int then (strike_int : ℚ) / 1000
        else if 10000 < strike_int then (strike_int : ℚ) / 100
        else (strike_int : ℚ)
      | none => 0
    else 0
  if 15 ≤ contract_key.length then
    match parseU32? (lastN 8 contract_key) with
    | some strike_int => (strike_int : ℚ) / 1000
    | none =>
      match parseU32? (lastN 7 contract_key) with
      | some strike_int => (strike_int : ℚ) / 1000
      | none =>
        match parseU32? (lastN 6 contract_key) with
        | some strike_int => (strike_int : ℚ) / 1000
        | none => fallback
  else fallback

/-- Parse a six-character window as YYMMDD with the month/day validation of
`parse_expiration_date_from_contract_key` (each two-character piece goes
through Rust `parse::<u32>`, then month ∈ [1,12] and day ∈ [1,31]). -/
def parseYMD? (s : List Char) : Option (ℕ × ℕ × ℕ) :=
  if s.length = 6 then
    match parseU32? (s.take 2), parseU32? ((s.drop 2).take 2), parseU32? (s.drop 4) with
    | some year, some month, some day =>
      if 1 ≤ month ∧ month ≤ 12 ∧ 1 ≤ day ∧ day ≤ 31 then some (year, month, day) else none
    | _, _, _ => none
  else none

/-- The date string produced by the format call in
`parse_expiration_date_from_contract_key`: zero-padded 4-digit year, 2-digit
month and 2-digit day separated by dashes. -/
def formatDate (year month day : ℕ) : List Char :=
  padNum 4 year ++ ['-'] ++ padNum 2 month ++ ['-'] ++ padNum 2 day

/-- One positional strategy of `parse_expiration_date_from_contract_key`
(lines 666-697): look at the window that starts `total` characters from the
end and stops `skip` characters from the end. -/
def tryDateAt (contract_key : List Char) (total skip : ℕ) : Option (List Char) :=
  if total ≤ contract_key.length then
    let start_pos := contract_key.length - total
    let end_pos := contract_key.length - skip
    if start_pos < end_pos ∧ end_pos ≤ contract_key.length then
      let date_part := (contract_key.drop start_pos).take (end_pos - start_pos)
      if date_part.length = 6 then
        match parseYMD? date_part with
        | some (year, month, day) => some (formatDate (2000 + year) month day)
        | none => none
      else none
    else none
  else none

/-- The body of the final scan loop of `parse_expiration_date_from_contract_key`
(lines 700-716), iterating over the given start indices.  Rust slices
`&contract_key[i..i+6]` unconditionally, so an index with `i + 6` beyond the
key length is an out-of-bounds panic, modelled by `none`; reaching the end of
the loop returns the empty string. -/
def scan_go (contract_key : List Char) : List ℕ → Option (List Char)
  | [] => some []
  | i :: rest =>
    if i + 6 ≤ contract_key.length then
      let date_part := (contract_key.drop i).take 6
      if date_part.all Char.isDigit then
        match parseYMD? date_part with
        | some (year, month, day) => some (formatDate (2000 + year) month day)
        | none => scan_go contract_key rest
      else scan_go contract_key rest
    else none

/-- The final scan of `parse_expiration_date_from_contract_key`: indices
`0 ..= contract_key.len().saturating_sub(6)` (an inclusive range, so index 0 is
visited even for keys shorter than 6 characters). -/
def scan_date_windows (contract_key : List Char) : Option (List Char) :=
  scan_go contract_key (List.range (contract_key.length - 6 + 1))

/-- `parse_expiration_date_from_contract_key`, src/alpaca_data.rs lines
661-719.  `none` models a panic (out-of-bounds slice in the final scan);
`some d` a normal return of the string `d` (possibly empty). -/
def parse_expiration_date_from_contract_key (contract_key : List Char) : Option (List Char) :=
  match tryDateAt contract_key 15 9 <|> tryDateAt contract_key 14 8 <|>
        tryDateAt contract_key 13 7 <|> tryDateAt contract_key 12 6 with
  | some d => some d
  | none => scan_date_windows contract_key

/-- The canonical encoding scheme of an option contract key:
SYMBOL ++ YYMMDD ++ right ++ 8-digit strike in thousandths of a dollar. -/
def canonical_contract_key (symbol : List Char) (yy mm dd : ℕ) (right : Char)
    (strikeMilli : ℕ) : List Char :=
  symbol ++ padNum 2 yy ++ padNum 2 mm ++ padNum 2 dd ++ [right] ++ padNum 8 strikeMilli

/-- The partial sums of the `days_in_month` array used by
`parse_days_to_expiry` (lines 336-370): total days of the months from
September (month 9, the hard-coded current month) up to but excluding `month`,
for `month ≤ 13`.  For `month ≥ 14` the source loop indexes
`days_in_month[12]`, which is out of bounds and panics before the sum is used;
that case is diverted to `RunResult.crash` before this function is consulted. -/
def days_from_september (month : ℕ) : ℤ :=
  if month ≤ 9 then 0
  else if month = 10 then 30
  else if month = 11 then 61
  else if month = 12 then 91
  else 122

/-- `parse_days_to_expiry`, src/alpaca_data.rs lines 336-370: extract the six
characters at offsets 4..10 as YYMMDD, and against the hard-coded current date
2025-09-16 estimate the days to expiry.  `RunResult.crash` models the
out-of-bounds `days_in_month[m - 1]` access that the month loop performs when
the parsed month is at least 14. -/
def parse_days_to_expiry (contract_key : List Char) : RunResult (Option ℕ) :=
  if 10 ≤ contract_key.length then
    match parseU32? ((contract_key.drop 4).take 6) with
    | some date_str =>
      let year := 2000 + date_str / 10000
      let month := (date_str % 10000) / 100
      let day := date_str % 100
      if year = 2025 then
        if 14 ≤ month then .crash
        else
          let days_to_expiry : ℤ := days_from_september month + (day : ℤ) - 16
          .value (if 0 < days_to_expiry then some days_to_expiry.toNat else none)
      else .value none
    | none => .value none
  else .value none

/-- The JSON contract object, restricted to the fields the pipeline reads.
`latestQuote_ap` and `latestQuote_as` stand for the nested lookups
`contract["latestQuote"]["ap"]` (ask price) and `contract["latestQuote"]["as"]`
(ask size, used as a volume proxy); a missing `latestQuote` object makes both
absent. -/
structure Contract where
  latestQuote_ap : Option ℚ := none
  latestQuote_as : Option ℕ := none
  contract_key : Option (List Char) := none
  implied_volatility : Option ℚ := none
  iv : Option ℚ := none
  impliedVolatility : Option ℚ := none
  underlying_price : Option ℚ := none
  spot_price : Option ℚ := none
  last_price : Option ℚ := none
  expiration_date : Option (List Char) := none
  open_interest : Option ℕ := none
  oi : Option ℕ := none
  openInterest : Option ℕ := none
  outstanding_contracts : Option ℕ := none
  strike_price : Option ℚ := none
  strike : Option ℚ := none
deriving DecidableEq, Repr

/-- `MetricsResult`, src/types.rs lines 131-144. -/
structure MetricsResult where
  n_periods : ℕ
  mean_return : ℚ
  volatility : ℚ
  downside_deviation : ℚ
  cagr : ℚ
  max_drawdown : ℚ
  sharpe : ℚ
  sortino : ℚ
  calmar : ℚ
  kelly_fraction : ℚ
  composite_score : ℚ
deriving DecidableEq, Repr

/-- `FinancialMetrics`, src/types.rs lines 66-77. -/
structure FinancialMetrics where
  sharpe_ratio : ℚ
  sortino_ratio : ℚ
  calmar_ratio : ℚ
  max_drawdown : ℚ
  volatility : ℚ
  composite_score : ℚ
  kelly_fraction : ℚ
  var_95 : ℚ
  expected_shortfall : ℚ
deriving DecidableEq, Repr

/-- One entry of a trading signal's `reasoning` list.  The first entry of the
source is the formatted string produced by the format call at line 1073 of
src/alpaca_data.rs; its two-decimal rendering of the confidence is represented
constructorily by `sentiment overall confidence` instead of by a decimal
string. -/
inductive Reason where
  | sentiment (overall : String) (confidence : ℚ) : Reason
  | text (s : String) : Reason
deriving DecidableEq, Repr

/-- `TradingSignal`, src/types.rs lines 42-64. -/
structure TradingSignal where
  symbol : String
  signal_type : String
  confidence : ℚ
  sentiment_score : ℚ
  risk_score : ℚ
  expected_return : ℚ
  max_loss : ℚ
  time_horizon : String
  entry_price : ℚ
  strike_price : ℚ
  expiration_date : List Char
  volume : ℕ
  open_interest : ℕ
  implied_volatility : ℚ
  delta : ℚ
  gamma : ℚ
  theta : ℚ
  vega : ℚ
  financial_metrics : FinancialMetrics
  reasoning : List Reason
deriving DecidableEq, Repr

/-- `OptionAnalysis`, src/types.rs lines 25-31 (the JSON `contract` value is
restricted to the fields the pipeline reads). -/
structure OptionAnalysis where
  contract_type : String
  contract : Contract
  option_score : ℚ
  undervalued_indicators : List String
deriving DecidableEq, Repr

/-- `SymbolOptionsAnalysis`, src/types.rs lines 33-39, restricted to the
fields used by the signal-conversion loop (`underlying_metrics` is an opaque
JSON value the loop never reads). -/
structure SymbolOptionsAnalysis where
  symbol : String
  options_analysis : List OptionAnalysis
  error : Option String := none
deriving DecidableEq, Repr

/-- `SentimentAnalysis`, src/types.rs lines 17-23. -/
structure SentimentAnalysis where
  headline : String
  symbols : List String
  sentiment : String
  confidence : ℚ
deriving DecidableEq, Repr

/-- `calculate_undervalued_indicators`, src/alpaca_data.rs lines 373-396. -/
def calculate_undervalued_indicators (contract : Contract) (_spot_price composite_score : ℚ) :
    List String :=
  (match contract.latestQuote_as with
   | some volume => if 1000 < volume then ["High volume"] else []
   | none => []) ++
  (match contract.latestQuote_ap with
   | some price => if price < 1 then ["Low cost entry"] else []
   | none => []) ++
  (if 0.7 < composite_score then ["Strong sentiment"] else [])

/-- `calculate_option_score`, src/alpaca_data.rs lines 287-333.  A crash of
`parse_days_to_expiry` propagates. -/
def calculate_option_score (contract : Contract) (_spot_price composite_score : ℚ) :
    RunResult ℚ :=
  let score := composite_score * 0.3
  let score := score +
    (match contract.latestQuote_as with
     | some volume => min ((volume : ℚ) / 1000) 10
     | none => 0)
  let score := score +
    (match contract.latestQuote_ap with
     | some price => if 0 < price then min (1 / price) 5 else 0
     | none => 0)
  match (match contract.contract_key with
         | some expiry_str => parse_days_to_expiry expiry_str
         | none => .value none) with
  | .crash => .crash
  | .value days? =>
    let score := score +
      (match days? with
       | some days_to_expiry =>
         if days_to_expiry < 30 then -2
         else if 365 < days_to_expiry then -1
         else 1
       | none => 0)
    let score := score +
      (match contract.open_interest with
       | some oi_val =>
         if 1000 < oi_val then 2
         else if 100 < oi_val then 1
         else if oi_val < 50 then -1
         else 0
       | none => 0)
    .value score

/-- The selection core of `analyze_ticker_options`, src/alpaca_data.rs lines
155-205: score both candidate slots, then emit at most one `options_analysis`
entry. -/
def analyze_ticker_options_select (short_term leap : Option Contract)
    (spot_price composite_score : ℚ) : RunResult (List OptionAnalysis) :=
  match (match short_term with
         | some contract => calculate_option_score contract spot_price composite_score
         | none => .value 0) with
  | .crash => .crash
  | .value short_term_score =>
    match (match leap with
           | some contract => calculate_option_score contract spot_price composite_score
           | none => .value 0) with
    | .crash => .crash
    | .value leap_score =>
      .value
        (if leap_score < short_term_score then
          match short_term with
          | some contract =>
            [⟨"short_term", contract, short_term_score,
              calculate_undervalued_indicators contract spot_price composite_score⟩]
          | none => []
        else if 0 < leap_score then
          match leap with
          | some contract =>
            [⟨"leap", contract, leap_score,
              calculate_undervalued_indicators contract spot_price composite_score⟩]
          | none => []
        else if 0 < short_term_score then
          match short_term with
          | some contract =>
            [⟨"short_term", contract, short_term_score,
              calculate_undervalued_indicators contract spot_price composite_score⟩]
          | none => []
        else [])

/-- The second and third blocks of `calculate_time_to_expiry` (src/alpaca_data.rs
lines 586-599): fall back to the `expiration_date` field, else default to 30
days.  `dateDays s` abstracts the chrono parse of `s` as a calendar date and
its signed day distance from today (wall clock): `none` when the string does
not parse as a valid date. -/
def tte_fallback (contract : Contract) (dateDays : List Char → Option ℚ) : ℚ :=
  match contract.expiration_date with
  | some expiration_str =>
    if expiration_str ≠ [] then
      match dateDays expiration_str with
      | some days => if 0 < days then days else 1
      | none => 30
    else 30
  | none => 30

/-- `calculate_time_to_expiry`, src/alpaca_data.rs lines 571-600.  When the
contract key is present, `parse_expiration_date_from_contract_key` is always
invoked; its panic on keys shorter than six characters propagates as
`RunResult.crash`. -/
def calculate_time_to_expiry (contract : Contract) (dateDays : List Char → Option ℚ) :
    RunResult ℚ :=
  match contract.contract_key with
  | some k =>
    match parse_expiration_date_from_contract_key k with
    | none => .crash
    | some expiration_str =>
      .value
        (if expiration_str ≠ [] then
          match dateDays expiration_str with
          | some days => if 0 < days then days else 1
          | none => tte_fallback contract dateDays
        else tte_fallback contract dateDays)
  | none => .value (tte_fallback contract dateDays)

/-- `calculate_dynamic_downside_deviation`, src/alpaca_data.rs lines 1408-1420. -/
def calculate_dynamic_downside_deviation (volatility expected_return time_to_expiry : ℚ) : ℚ :=
  if volatility ≤ 0 then 0
  else
    let base_downside_ratio := 0.6 + min (expected_return * 0.3) 0.3
    let time_factor := 1 + min (time_to_expiry / 365) 0.5 * 0.2
    volatility * base_downside_ratio * time_factor

/-- `calculate_dynamic_composite_score`, src/alpaca_data.rs lines 1435-1471. -/
def calculate_dynamic_composite_score (sharpe sortino calmar volatility time_to_expiry : ℚ) :
    ℚ :=
  let capped_sharpe := min sharpe 3
  let capped_sortino := min sortino 4
  let capped_calmar := min calmar 10
  let weights : ℚ × ℚ × ℚ :=
    if 0.4 < volatility then (0.3, 0.5, 0.2)
    else if volatility < 0.2 then (0.5, 0.3, 0.2)
    else (0.4, 0.4, 0.2)
  let weights : ℚ × ℚ × ℚ :=
    if 90 < time_to_expiry then (0.35, 0.35, 0.3) else weights
  let raw_score :=
    weights.1 * capped_sharpe + weights.2.1 * capped_sortino + weights.2.2 * capped_calmar
  min raw_score 5

/-- The Kelly-fraction block of `calculate_option_financial_metrics`,
src/alpaca_data.rs lines 509-550 (the guard `volatility > 0 && entry_price > 0`
is applied by the caller). -/
def kelly_block (moneyness expected_return volume time_to_expiry : ℚ) : ℚ :=
  let win_prob : ℚ :=
    if 0.95 < moneyness ∧ moneyness < 1.05 then 0.60
    else if 0.85 < moneyness ∧ moneyness < 1.15 then 0.50
    else if 0.7 < moneyness ∧ moneyness < 1.3 then 0.40
    else 0.25
  let potential_win :=
    if 0.9 < moneyness then expected_return * 3 + 0.5
    else expected_return * 5 + 0.2
  let potential_loss : ℚ := 1
  let kelly_raw := (win_prob * potential_win - (1 - win_prob) * potential_loss) / potential_win
  let liquidity_factor : ℚ := if 1000 < volume then 1 else if 500 < volume then 0.8 else 0.6
  let time_factor : ℚ := if 30 < time_to_expiry then 1 else 0.7
  let adjusted_kelly := kelly_raw * liquidity_factor * time_factor
  if 0 < adjusted_kelly then min (max adjusted_kelly 0.02) 0.25 else 0

/-- `calculate_option_financial_metrics`, src/alpaca_data.rs lines 399-568.
`risk_free_rate` stands for `get_dynamic_risk_free_rate()` (a wall-clock
derived rational).  A panic of the time-to-expiry computation propagates;
`RunResult.value none` is the source's `None` return for a non-positive entry
price. -/
def calculate_option_financial_metrics (contract : Contract)
    (dateDays : List Char → Option ℚ) (risk_free_rate : ℚ) :
    RunResult (Option MetricsResult) :=
  let entry_price := contract.latestQuote_ap.getD 0
  let strike_price0 :=
    (contract.contract_key.map parse_strike_price_from_contract_key).getD 0
  let volume : ℚ := (contract.latestQuote_as.getD 0 : ℕ)
  let implied_volatility := contract.implied_volatility.getD 0.3
  if entry_price ≤ 0 then .value none
  else
    let strike_price := if 0 < strike_price0 then strike_price0 else entry_price * 1.1
    match calculate_time_to_expiry contract dateDays with
    | .crash => .crash
    | .value time_to_expiry =>
      let spot_price :=
        (contract.underlying_price <|> contract.spot_price <|> contract.last_price).getD
          (if 0 < strike_price then strike_price * 0.95 else entry_price * 100)
      let moneyness := if 0 < strike_price then spot_price / strike_price else 1
      let base_return :=
        if 0.9 < moneyness ∧ moneyness < 1.1 then implied_volatility * 0.8
        else if 0.8 < moneyness ∧ moneyness < 1.2 then implied_volatility * 0.6
        else implied_volatility * 0.3
      let time_factor : ℚ :=
        if 365 < time_to_expiry then 1.5 else if 90 < time_to_expiry then 1.2 else 1
      let expected_return := base_return * time_factor
      let volatility := implied_volatility * (1 + min (volume / 10000) 1)
      let daily_risk_free := risk_free_rate / 252
      let sharpe :=
        if 0 < volatility then (expected_return - daily_risk_free) / volatility else 0
      let downside_deviation :=
        calculate_dynamic_downside_deviation volatility expected_return time_to_expiry
      let sortino :=
        if 0 < downside_deviation then (expected_return - daily_risk_free) / downside_deviation
        else 0
      let max_drawdown :=
        if 0 < time_to_expiry then
          let time_factor := min (time_to_expiry / 30) 1
          let base_drawdown := 0.2 + implied_volatility * 0.5
          base_drawdown * (1 - time_factor * 0.3)
        else 0.3
      let cagr := expected_return * 252
      let calmar := if 0 < max_drawdown then cagr / max_drawdown else 0
      let kelly :=
        if 0 < volatility ∧ 0 < entry_price then
          kelly_block moneyness expected_return volume time_to_expiry
        else 0
      let composite_score :=
        calculate_dynamic_composite_score sharpe sortino calmar volatility time_to_expiry
      .value (some
        { n_periods := 1
          mean_return := expected_return
          volatility := volatility
          downside_deviation := volatility * 0.8
          cagr := cagr
          max_drawdown := max_drawdown
          sharpe := sharpe
          sortino := sortino
          calmar := calmar
          kelly_fraction := kelly
          composite_score := composite_score })

/-- `calculate_dynamic_var_95`, src/alpaca_data.rs lines 1371-1392.
`sqrt_time_scale` stands for the floating point `(time_to_expiry/365.0).sqrt()`,
which is non-negative whenever it is evaluated (the guard ensures a positive
radicand). -/
def calculate_dynamic_var_95 (volatility mean_return time_to_expiry sqrt_time_scale : ℚ) : ℚ :=
  if volatility ≤ 0 ∨ time_to_expiry ≤ 0 then 0
  else
    let time_adjusted_vol := volatility * sqrt_time_scale
    let var_95 := mean_return - 1.645 * time_adjusted_vol
    if mean_return ≤ 0 then 2 * time_adjusted_vol
    else |min var_95 0|

/-- `calculate_dynamic_expected_shortfall`, src/alpaca_data.rs lines 1395-1405. -/
def calculate_dynamic_expected_shortfall (volatility mean_return time_to_expiry
    sqrt_time_scale : ℚ) : ℚ :=
  if volatility ≤ 0 ∨ time_to_expiry ≤ 0 then 0
  else
    let var_95 := calculate_dynamic_var_95 volatility mean_return time_to_expiry sqrt_time_scale
    let es_multiplier := 1 + min (volatility * 0.5) 0.5
    var_95 * es_multiplier

/-- `calculate_expected_option_return`, src/alpaca_data.rs lines 1284-1322. -/
def calculate_expected_option_return (entry_price strike_price spot_price
    implied_volatility time_to_expiry : ℚ) (is_call : Bool) (volume open_interest : ℕ) : ℚ :=
  if entry_price ≤ 0 ∨ time_to_expiry ≤ 0 ∨ spot_price ≤ 0 then 0
  else
    let moneyness := if 0 < strike_price then spot_price / strike_price else 1
    let base_return :=
      if is_call then max (moneyness - 0.8) 0 * 0.5
      else max (0.8 - moneyness) 0 * 0.5
    let time_factor := min (time_to_expiry / 30) 1
    let liquidity_factor :=
      (min ((volume : ℚ) / 1000) 1 + min ((open_interest : ℚ) / 1000) 1) / 2
    let volatility_factor := min (implied_volatility / 0.3) 2
    let expected_return :=
      base_return * time_factor * (0.5 + 0.5 * liquidity_factor) * volatility_factor
    min (max expected_return 0) 1

/-- `calculate_dynamic_risk_score`, src/alpaca_data.rs lines 1325-1345. -/
def calculate_dynamic_risk_score (implied_volatility max_drawdown : ℚ)
    (volume open_interest : ℕ) (time_to_expiry : ℚ) : ℚ :=
  let vol_risk := min (implied_volatility / 0.5) 1 * 0.4
  let drawdown_risk := min (max_drawdown / 0.5) 1 * 0.3
  let liquidity_risk :=
    (1 - (min ((volume : ℚ) / 10000) 1 + min ((open_interest : ℚ) / 10000) 1) / 2) * 0.2
  let time_risk := (1 - min (time_to_expiry / 30) 1) * 0.1
  min (max (vol_risk + drawdown_risk + liquidity_risk + time_risk) 0) 1

/-- `calculate_dynamic_confidence`, src/alpaca_data.rs lines 1348-1368. -/
def calculate_dynamic_confidence (sentiment_score option_score composite_score : ℚ)
    (volume open_interest : ℕ) : ℚ :=
  let sentiment_confidence := sentiment_score * 0.4
  let option_confidence := min (option_score / 10) 1 * 0.3
  let financial_confidence := min (composite_score / 5) 1 * 0.2
  let liquidity_confidence :=
    (min ((volume : ℚ) / 10000) 1 + min ((open_interest : ℚ) / 10000) 1) / 2 * 0.1
  min (max (sentiment_confidence + option_confidence + financial_confidence +
      liquidity_confidence) 0) 1

/-- Whether `needle` is a prefix of `haystack` (character lists). -/
def charsHavePrefix : List Char → List Char → Bool
  | [], _ => true
  | _ :: _, [] => false
  | a :: as, b :: bs => a = b && charsHavePrefix as bs

/-- Model of Rust `str::contains(needle)`: `needle` occurs as a contiguous
substring of `haystack`. -/
def charsContain (haystack needle : List Char) : Bool :=
  charsHavePrefix needle haystack ||
    (match haystack with
     | [] => false
     | _ :: t => charsContain t needle)

/-- `is_biotech_symbol`, src/alpaca_data.rs lines 826-832 (substring search). -/
def is_biotech_symbol (symbol : String) : Bool :=
  ["BIO", "PHARMA", "THERA", "GEN", "CELL", "MED", "CURE", "LIFE", "HEALTH",
   "ATYR", "OSCR", "RCAT", "AREC", "HYLN", "UUUU"].any
    (fun indicator => charsContain symbol.data indicator.data)

/-- `is_small_biotech`, src/alpaca_data.rs lines 834-837. -/
def is_small_biotech (symbol : String) : Bool :=
  ["ATYR", "OSCR", "RCAT", "AREC", "HYLN", "UUUU"].contains symbol

/-- `is_energy_symbol`, src/alpaca_data.rs lines 839-842. -/
def is_energy_symbol (symbol : String) : Bool :=
  ["OIL", "GAS", "ENERGY", "POWER", "FUEL", "DRILL"].any
    (fun indicator => charsContain symbol.data indicator.data)

/-- `is_materials_symbol`, src/alpaca_data.rs lines 844-847. -/
def is_materials_symbol (symbol : String) : Bool :=
  ["MINING", "METAL", "GOLD", "SILVER", "COPPER", "STEEL"].any
    (fun indicator => charsContain symbol.data indicator.data)

/-- `classify_sector_risk`, src/alpaca_data.rs lines 794-823. -/
def classify_sector_risk (symbol : String) : ℚ × List String :=
  let biotech : ℚ × List String :=
    if is_biotech_symbol symbol then
      (0.3, ["Biotech sector - high regulatory and clinical trial risk"])
    else (0, [])
  let small_biotech : ℚ × List String :=
    if is_small_biotech symbol then
      (0.2, ["Small biotech - extreme volatility and binary outcomes"])
    else (0, [])
  let energy : ℚ × List String :=
    if is_energy_symbol symbol then
      (0.15, ["Energy sector - commodity price volatility"])
    else (0, [])
  let materials : ℚ × List String :=
    if is_materials_symbol symbol then
      (0.2, ["Materials sector - commodity and economic cycle risk"])
    else (0, [])
  (biotech.1 + small_biotech.1 + energy.1 + materials.1,
   biotech.2 ++ small_biotech.2 ++ energy.2 ++ materials.2)

/-- `estimate_market_cap`, src/alpaca_data.rs lines 850-861. -/
def estimate_market_cap (symbol : String) (price : ℚ) : ℚ :=
  let estimated_shares : ℚ :=
    if symbol = "AAPL" ∨ symbol = "MSFT" ∨ symbol = "GOOGL" ∨ symbol = "AMZN" ∨
        symbol = "TSLA" then 15000000000
    else if symbol = "NIO" ∨ symbol = "BAC" then 2000000000
    else 50000000
  price * estimated_shares

/-- `assess_fundamental_risk`, src/alpaca_data.rs lines 722-791: a risk score
accumulated from independent additive rules, capped at 1, with one reason
string per triggered rule. -/
def assess_fundamental_risk (symbol : String) (contract : Contract) : ℚ × List String :=
  let entry_price := contract.latestQuote_ap.getD 0
  let volume := contract.latestQuote_as.getD 0
  let open_interest := contract.open_interest.getD 0
  let price_rule : ℚ × List String :=
    if entry_price < 0.05 then
      (0.3, ["Extremely low price (<$0.05) - high risk of delisting"])
    else if entry_price < 0.10 then
      (0.2, ["Very low price (<$0.10) - penny stock risk"])
    else (0, [])
  let volume_rule : ℚ × List String :=
    if volume < 100 then (0.25, ["Very low volume (<100) - execution risk"])
    else if volume < 500 then (0.15, ["Low volume (<500) - liquidity concerns"])
    else (0, [])
  let oi_rule : ℚ × List String :=
    if open_interest < 50 then (0.2, ["Very low open interest (<50) - limited liquidity"])
    else (0, [])
  let sector_rule := classify_sector_risk symbol
  let implied_volatility := contract.implied_volatility.getD 0.3
  let iv_rule : ℚ × List String :=
    if 1 < implied_volatility then (0.3, ["Extreme volatility (>100%) - high risk"])
    else if 0.8 < implied_volatility then
      (0.2, ["Very high volatility (>80%) - elevated risk"])
    else (0, [])
  let cap_rule : ℚ × List String :=
    if estimate_market_cap symbol entry_price < 50000000 then
      (0.25, ["Small cap stock (<$50M) - high volatility risk"])
    else (0, [])
  (min (price_rule.1 + volume_rule.1 + oi_rule.1 + sector_rule.1 + iv_rule.1 + cap_rule.1) 1,
   price_rule.2 ++ volume_rule.2 ++ oi_rule.2 ++ sector_rule.2 ++ iv_rule.2 ++ cap_rule.2)

/-- `convert_to_trading_signal`, src/alpaca_data.rs lines 864-1132.

Abstracted subcomputations, all of them irrelevant to the claims: `dateDays`
for the chrono day-difference inside `calculate_time_to_expiry` (every source
call site passes the same contract, so the value is computed once here;
the source's first panic point, the `parse_expiration_date_from_contract_key`
call at line 903, fires under exactly the same condition as this one),
`risk_free_rate` for `get_dynamic_risk_free_rate()`, `sqrt_time_scale` for
`(time_to_expiry/365.0).sqrt()`, and `greeks` for the transcendental
`calculate_option_greeks` (applied to the same arguments as in the source). -/
def convert_to_trading_signal (symbol : String) (option_analysis : OptionAnalysis)
    (sentiment_score : ℚ) (overall_sentiment : String)
    (dateDays : List Char → Option ℚ) (risk_free_rate sqrt_time_scale : ℚ)
    (greeks : ℚ → ℚ → ℚ → ℚ → Bool → ℚ × ℚ × ℚ × ℚ) : RunResult TradingSignal :=
  let contract := option_analysis.contract
  match calculate_time_to_expiry contract dateDays with
  | .crash => .crash
  | .value time_to_expiry =>
    let fundamental := assess_fundamental_risk symbol contract
    let fundamental_risk_score := fundamental.1
    let risk_factors := fundamental.2
    let entry_price := contract.latestQuote_ap.getD 0
    let strike_price :=
      match contract.contract_key with
      | some contract_key =>
        let parsed_strike := parse_strike_price_from_contract_key contract_key
        if 0 < parsed_strike then parsed_strike
        else (contract.strike_price <|> contract.strike).getD 0
      | none => (contract.strike_price <|> contract.strike).getD 0
    let expiration_date :=
      match contract.contract_key with
      | some contract_key =>
        match parse_expiration_date_from_contract_key contract_key with
        | some parsed_date =>
          if parsed_date = [] then contract.expiration_date.getD [] else parsed_date
        | none => []  -- unreachable: the time-to-expiry computation above crashes first
      | none => contract.expiration_date.getD []
    let volume := contract.latestQuote_as.getD 0
    let open_interest :=
      (contract.open_interest <|> contract.oi <|> contract.openInterest <|>
        contract.outstanding_contracts <|> contract.latestQuote_as).getD 0
    let implied_volatility :=
      match contract.implied_volatility <|> contract.iv <|> contract.impliedVolatility with
      | some v => v
      | none =>
        let volume_factor := min ((volume : ℚ) / 10000) 1
        let base_iv := 0.2 + time_to_expiry / 365 * 0.1
        base_iv + volume_factor * 0.1
    let spot_price :=
      (contract.underlying_price <|> contract.spot_price <|> contract.last_price).getD
        (if 0 < strike_price then strike_price * 0.95 else entry_price * 100)
    let greeks_value :=
      greeks spot_price strike_price implied_volatility time_to_expiry
        (overall_sentiment = "call")
    let signal_type :=
      if 0.9 < sentiment_score then "BUY_CALL"
      else if sentiment_score < 0.2 then "BUY_PUT"
      else if 0.7 < sentiment_score then "BUY_CALL"
      else if sentiment_score < 0.4 then "BUY_PUT"
      else if overall_sentiment = "call" ∧ (option_analysis.contract_type = "short_term" ∨
          option_analysis.contract_type = "leap") then "BUY_CALL"
      else if overall_sentiment = "put" ∧ (option_analysis.contract_type = "short_term" ∨
          option_analysis.contract_type = "leap") then "BUY_PUT"
      else "BUY_CALL"
    let financial_metrics :=
      match calculate_option_financial_metrics contract dateDays risk_free_rate with
      | .value (some metrics) =>
        { sharpe_ratio := metrics.sharpe
          sortino_ratio := metrics.sortino
          calmar_ratio := metrics.calmar
          max_drawdown := metrics.max_drawdown
          volatility := metrics.volatility
          composite_score := metrics.composite_score
          kelly_fraction := metrics.kelly_fraction
          var_95 := calculate_dynamic_var_95 metrics.volatility metrics.mean_return
            time_to_expiry sqrt_time_scale
          expected_shortfall := calculate_dynamic_expected_shortfall metrics.volatility
            metrics.mean_return time_to_expiry sqrt_time_scale }
      | _ =>
        { sharpe_ratio := 0, sortino_ratio := 0, calmar_ratio := 0, max_drawdown := 0
          volatility := 0, composite_score := 0, kelly_fraction := 0, var_95 := 0
          expected_shortfall := 0 }
    let expected_return :=
      calculate_expected_option_return entry_price strike_price spot_price implied_volatility
        time_to_expiry (overall_sentiment = "call") volume open_interest
    let max_loss := entry_price
    let time_horizon :=
      if option_analysis.contract_type = "leap" then "LEAP" else "SHORT_TERM"
    let technical_risk_score :=
      calculate_dynamic_risk_score implied_volatility financial_metrics.max_drawdown volume
        open_interest time_to_expiry
    let risk_score := min (technical_risk_score * 0.6 + fundamental_risk_score * 0.4) 1
    let reasoning :=
      [Reason.sentiment overall_sentiment sentiment_score] ++
        option_analysis.undervalued_indicators.map Reason.text ++
        (risk_factors.take 2).map Reason.text ++
        (if 1 < financial_metrics.sharpe_ratio then
          [Reason.text "Strong risk-adjusted returns"] else []) ++
        (if 1000 < volume then [Reason.text "High volume"] else [])
    let base_confidence :=
      calculate_dynamic_confidence sentiment_score option_analysis.option_score
        financial_metrics.composite_score volume open_interest
    let confidence :=
      if 0.7 < fundamental_risk_score then base_confidence * 0.3
      else if 0.5 < fundamental_risk_score then base_confidence * 0.6
      else if 0.3 < fundamental_risk_score then base_confidence * 0.8
      else base_confidence
    .value
      { symbol := symbol
        signal_type := signal_type
        confidence := confidence
        sentiment_score := sentiment_score
        risk_score := risk_score
        expected_return := expected_return
        max_loss := max_loss
        time_horizon := time_horizon
        entry_price := entry_price
        strike_price := strike_price
        expiration_date := expiration_date
        volume := volume
        open_interest := open_interest
        implied_volatility := implied_volatility
        delta := greeks_value.1
        gamma := greeks_value.2.1
        theta := greeks_value.2.2.1
        vega := greeks_value.2.2.2
        financial_metrics := financial_metrics
        reasoning := reasoning }

/-- The descending-confidence comparison used to sort the sentiment list in
`perform_analysis` (src/main.rs line 428). -/
def sort_news (news : List SentimentAnalysis) : List SentimentAnalysis :=
  List.insertionSort (fun a b => b.confidence ≤ a.confidence) news

/-- The per-symbol sentiment lookup of the signal-conversion loop
(src/main.rs lines 588-591): the first entry of the descending-sorted
sentiment list whose symbol list contains the symbol, defaulting to 0.5.
The source sorts the list once before the loop; sorting inside the lookup is
the same deterministic list. -/
def lookup_sentiment (news : List SentimentAnalysis) (symbol : String) : ℚ :=
  (((sort_news news).find? (fun n => n.symbols.contains symbol)).map
    (fun n => n.confidence)).getD 0.5

/-- Sequence a list of possibly-crashing computations: the Rust loop panics as
a whole as soon as one element panics. -/
def sequenceRun {α : Type} : List (RunResult α) → RunResult (List α)
  | [] => .value []
  | .crash :: _ => .crash
  | .value a :: rest =>
    match sequenceRun rest with
    | .crash => .crash
    | .value l => .value (a :: l)

/-- The signal-conversion loop of `perform_analysis`, src/main.rs lines
584-605: convert every option of every symbol analysis into a trading signal
(looking up the per-symbol sentiment score) and keep only the signals with
`risk_score < 0.9` and `confidence > 0.1`. -/
def build_trading_signals (options_analysis : List SymbolOptionsAnalysis)
    (news_analysis : List SentimentAnalysis) (overall_sentiment : String)
    (dateDays : List Char → Option ℚ) (risk_free_rate : ℚ)
    (sqrt_time_scale : Contract → ℚ)
    (greeks : ℚ → ℚ → ℚ → ℚ → Bool → ℚ × ℚ × ℚ × ℚ) : RunResult (List TradingSignal) :=
  match sequenceRun
      ((options_analysis.flatMap (fun symbol_analysis =>
        symbol_analysis.options_analysis.map (fun option =>
          convert_to_trading_signal symbol_analysis.symbol option
            (lookup_sentiment news_analysis symbol_analysis.symbol) overall_sentiment
            dateDays risk_free_rate (sqrt_time_scale option.contract) greeks)))) with
  | .crash => .crash
  | .value signals =>
    .value (signals.filter (fun signal =>
      decide (signal.risk_score < 0.9) && decide (0.1 < signal.confidence)))

/-- `MarketSummary`, src/types.rs lines 80-90. -/
structure MarketSummary where
  timestamp : String
  total_signals : ℕ
  bullish_signals : ℕ
  bearish_signals : ℕ
  high_confidence_signals : ℕ
  market_sentiment : String
  overall_confidence : ℚ
  risk_level : String
  recommended_position_size : ℚ
deriving DecidableEq, Repr

/-- `calculate_dynamic_position_size`, src/alpaca_data.rs lines 1474-1489.
`sqrt_total` stands for `(total_signals as f64).sqrt()` (unused when the
count is zero). -/
def calculate_dynamic_position_size (confidence risk : ℚ) (total_signals : ℕ)
    (sqrt_total : ℚ) : ℚ :=
  let base_size := confidence * (1 - risk) * 100
  let diversification_factor := if 0 < total_signals then min (1 / sqrt_total) 1 else 1
  let risk_cap : ℚ := if risk < 0.3 then 25 else if risk < 0.7 then 15 else 10
  min (base_size * diversification_factor) risk_cap

/-- `calculate_market_summary`, src/alpaca_data.rs lines 1135-1189.
`timestamp` stands for the wall-clock RFC-3339 string; `sqrt_total` for the
float square root inside the position-size computation.  The threshold
comparison `bullish > (bearish as f64 * 1.5) as usize` truncates toward zero,
which on natural numbers is `3 * bearish / 2`. -/
def calculate_market_summary (trading_signals : List TradingSignal)
    (_sentiment_analysis : List SentimentAnalysis) (timestamp : String)
    (sqrt_total : ℚ) : MarketSummary :=
  let total_signals := trading_signals.length
  let bullish_signals :=
    (trading_signals.filter (fun s => charsContain s.signal_type.data "CALL".data)).length
  let bearish_signals :=
    (trading_signals.filter (fun s => charsContain s.signal_type.data "PUT".data)).length
  let high_confidence_signals :=
    (trading_signals.filter (fun s => decide (0.7 < s.confidence))).length
  let overall_confidence :=
    if 0 < total_signals then
      (trading_signals.map (fun s => s.confidence)).sum / (total_signals : ℚ)
    else 0
  let market_sentiment :=
    if 3 * bearish_signals / 2 < bullish_signals then "BULLISH"
    else if 3 * bullish_signals / 2 < bearish_signals then "BEARISH"
    else "NEUTRAL"
  let avg_risk :=
    if 0 < total_signals then
      (trading_signals.map (fun s => s.risk_score)).sum / (total_signals : ℚ)
    else 0.5
  let risk_level :=
    if avg_risk < 0.3 then "LOW" else if avg_risk < 0.7 then "MEDIUM" else "HIGH"
  { timestamp := timestamp
    total_signals := total_signals
    bullish_signals := bullish_signals
    bearish_signals := bearish_signals
    high_confidence_signals := high_confidence_signals
    market_sentiment := market_sentiment
    overall_confidence := overall_confidence
    risk_level := risk_level
    recommended_position_size :=
      calculate_dynamic_position_size overall_confidence avg_risk total_signals sqrt_total }

/-- `classify_symbol_sector`, src/alpaca_data.rs lines 1512-1548. -/
def classify_symbol_sector (symbol : String) : String :=
  let symbol_upper := symbol.toUpper
  if symbol_upper.startsWith "AAPL" ∨ symbol_upper.startsWith "MSFT" ∨
      symbol_upper.startsWith "GOOGL" ∨ symbol_upper.startsWith "AMZN" ∨
      symbol_upper.startsWith "META" ∨ symbol_upper.startsWith "NVDA" ∨
      symbol_upper.startsWith "TSLA" ∨ symbol_upper.startsWith "NFLX" then "TECH"
  else if symbol_upper.startsWith "JPM" ∨ symbol_upper.startsWith "BAC" ∨
      symbol_upper.startsWith "WFC" ∨ symbol_upper.startsWith "GS" ∨
      symbol_upper.startsWith "MS" ∨ symbol_upper.startsWith "C" then "FINANCE"
  else if symbol_upper.startsWith "JNJ" ∨ symbol_upper.startsWith "PFE" ∨
      symbol_upper.startsWith "UNH" ∨ symbol_upper.startsWith "ABBV" ∨
      symbol_upper.startsWith "MRK" ∨ symbol_upper.startsWith "TMO" then "HEALTHCARE"
  else if symbol_upper.startsWith "XOM" ∨ symbol_upper.startsWith "CVX" ∨
      symbol_upper.startsWith "COP" ∨ symbol_upper.startsWith "EOG" then "ENERGY"
  else if symbol_upper.startsWith "WMT" ∨ symbol_upper.startsWith "PG" ∨
      symbol_upper.startsWith "KO" ∨ symbol_upper.startsWith "PEP" then "CONSUMER"
  else "OTHER"

/-- `calculate_dynamic_sector_exposure`, src/alpaca_data.rs lines 1492-1509:
a histogram of sector labels normalized to fractions (the hash map is
represented as an association list keyed by the distinct sector labels). -/
def calculate_dynamic_sector_exposure (symbols : List String) : List (String × ℚ) :=
  let total_symbols : ℚ := symbols.length
  let sectors := symbols.map classify_symbol_sector
  sectors.eraseDups.map (fun sector => (sector, (sectors.count sector : ℚ) / total_symbols))

/-- An `f64` division at the model boundary: `none` is the non-finite result
(NaN or infinity) that floating point division produces when the denominator
is zero. -/
def fdiv (a b : ℚ) : Option ℚ :=
  if b = 0 then none else some (a / b)

/-- `RiskMetrics`, src/types.rs lines 101-109, restricted to the fields the
constructor in `calculate_risk_metrics` populates.  `portfolio_var` is an
`fdiv` result: `none` records that the source value is non-finite. -/
structure RiskMetrics where
  portfolio_var : Option ℚ
  max_portfolio_drawdown : ℚ
  diversification_score : ℚ
  sector_exposure : List (String × ℚ)
  volatility_regime : String
deriving DecidableEq, Repr

/-- `calculate_risk_metrics`, src/alpaca_data.rs lines 1192-1229.  Both sum
quotients divide by `trading_signals.len()` without guarding the empty case;
a NaN average volatility fails both `< 0.2` and `< 0.4` comparisons, so the
regime falls through to HIGH. -/
def calculate_risk_metrics (trading_signals : List TradingSignal) : RiskMetrics :=
  let symbols := trading_signals.map (fun s => s.symbol)
  let portfolio_var :=
    fdiv ((trading_signals.map (fun s => s.financial_metrics.var_95 * s.expected_return)).sum)
      (trading_signals.length : ℚ)
  let max_portfolio_drawdown :=
    (trading_signals.map (fun s => s.financial_metrics.max_drawdown)).foldl max 0
  let diversification_score : ℚ :=
    if 1 < symbols.length then 1 - 1 / (symbols.length : ℚ) else 0
  let sector_exposure := calculate_dynamic_sector_exposure symbols
  let avg_volatility :=
    fdiv ((trading_signals.map (fun s => s.financial_metrics.volatility)).sum)
      (trading_signals.length : ℚ)
  let volatility_regime :=
    match avg_volatility with
    | some v => if v < 0.2 then "LOW" else if v < 0.4 then "NORMAL" else "HIGH"
    | none => "HIGH"
  { portfolio_var := portfolio_var
    max_portfolio_drawdown := max_portfolio_drawdown
    diversification_score := diversification_score
    sector_exposure := sector_exposure
    volatility_regime := volatility_regime }

/-- Outcome of one HTTP attempt, as observed by the retry loops of
`get_alpaca_news` (src/alpaca_data.rs lines 20-51) and `do_request`
(lines 60-109): a tokio timeout, a transport error from the client, or a
response with a success flag and (for successes) the result of decoding the
body, `Except.error` being a JSON decode failure. -/
inductive FetchOutcome (α : Type) where
  | timeoutErr : FetchOutcome α
  | sendErr (msg : String) : FetchOutcome α
  | response (ok : Bool) (body : Except String α) : FetchOutcome α

/-- Result of a retry loop: the returned value or error string, the number of
requests actually sent, and the backoff delays slept (in seconds, in order). -/
structure FetchResult (α : Type) where
  result : Except String α
  attempts_made : ℕ
  backoff_delays : List ℕ

/-- The retry loop shared by `get_alpaca_news` and `do_request`:
`attempt` requests already made, `remaining` attempts still allowed
(`max_attempts - attempt`).  A timeout or transport error returns immediately
through the `?` operators; a non-success status increments the attempt counter
and sleeps `2^attempt` seconds when attempts remain; exhaustion returns
`exhaust_msg`. -/
def retry_fetch_go {α : Type} (outcomes : ℕ → FetchOutcome α) (exhaust_msg : String) :
    ℕ → ℕ → FetchResult α
  | attempt, 0 => ⟨.error exhaust_msg, attempt, []⟩
  | attempt, remaining + 1 =>
    match outcomes attempt with
    | .timeoutErr => ⟨.error "Request timeout", attempt + 1, []⟩
    | .sendErr msg => ⟨.error msg, attempt + 1, []⟩
    | .response ok body =>
      if ok then ⟨body, attempt + 1, []⟩
      else
        let rest := retry_fetch_go outcomes exhaust_msg (attempt + 1) remaining
        ⟨rest.result, rest.attempts_made,
          if 0 < remaining then 2 ^ (attempt + 1) :: rest.backoff_delays
          else rest.backoff_delays⟩

/-- The retry structure of `get_alpaca_news`, src/alpaca_data.rs lines 20-51
(`max_attempts = 3`, starting at attempt 0). -/
def get_alpaca_news {α : Type} (outcomes : ℕ → FetchOutcome α) : FetchResult α :=
  retry_fetch_go outcomes "Failed to fetch news after all retry attempts" 0 3

/-- The retry structure of `do_request` inside `fetch_alpaca_options`,
src/alpaca_data.rs lines 60-109 (`max_attempts = 3`, starting at attempt 0). -/
def do_request {α : Type} (outcomes : ℕ → FetchOutcome α) : FetchResult α :=
  retry_fetch_go outcomes "Failed to fetch options after all retry attempts" 0 3

/-- Fixture: a contract carrying only an ask size of 2000 (volume proxy).
Its option score against zero spot and composite is exactly 2. -/
def tie_contract : Contract :=
  { latestQuote_as := some 2000 }

/-- Fixture: a contract with ask size 5000, scoring 5. -/
def big_volume_contract : Contract :=
  { latestQuote_as := some 5000 }

/-- Fixture: a contract with a positive ask price and a two-character contract
key; the key makes the date-parser fallback scan slice out of bounds. -/
def short_key_contract : Contract :=
  { latestQuote_ap := some 1, contract_key := some ['A', 'B'] }

/-- Fixture: a contract with a positive ask price and no contract key. -/
def plain_priced_contract : Contract :=
  { latestQuote_ap := some 2 }

/-- Fixture: an option analysis over `tie_contract` in the short-term slot. -/
def fixture_option_analysis : OptionAnalysis :=
  { contract_type := "short_term", contract := tie_contract, option_score := 2
    undervalued_indicators := [] }

/-- Fixture: one symbol analysis for symbol XY carrying
`fixture_option_analysis`. -/
def fixture_symbol_analysis : SymbolOptionsAnalysis :=
  { symbol := "XY", options_analysis := [fixture_option_analysis] }

/-- Fixture: two headlines mentioning XYZ with confidences 0.95 and 0.40, and
one mentioning XY with confidence 0.95. -/
def fixture_news : List SentimentAnalysis :=
  [{ headline := "h1", symbols := ["XYZ", "XY"], sentiment := "positive", confidence := 0.95 },
   { headline := "h2", symbols := ["XYZ"], sentiment := "negative", confidence := 0.4 }]

/-- Fixture: a date-difference oracle that fails to parse every date string
(the claims under test do not depend on its values). -/
def no_dates : List Char → Option ℚ := fun _ => none

/-- Fixture: a Greeks oracle returning zeros. -/
def zero_greeks : ℚ → ℚ → ℚ → ℚ → Bool → ℚ × ℚ × ℚ × ℚ := fun _ _ _ _ _ => (0, 0, 0, 0)

/-- Fixture: an outcome stream whose every response is a non-success status. -/
def always_fail : ℕ → FetchOutcome ℕ :=
  fun _ => .response false (.error "500")

/-- Fixture: a contract with no ask price at all (entry price defaults to 0). -/
def no_price_contract : Contract := {}

instance : IsTotal SentimentAnalysis (fun a b => b.confidence ≤ a.confidence) :=
  ⟨fun a b => le_total b.confidence a.confidence⟩

instance : IsTrans SentimentAnalysis (fun a b => b.confidence ≤ a.confidence) :=
  ⟨fun _ _ _ h1 h2 => le_trans h2 h1⟩

/- ======================  theorems  ====================== -/

lemma retry_fetch_go_attempts {α : Type} (outcomes : ℕ → FetchOutcome α) (msg : String) :
    ∀ remaining attempt,
      (retry_fetch_go outcomes msg attempt remaining).attempts_made ≤ attempt + remaining := by
  intro remaining
  induction remaining with
  | zero => intro attempt; simp [retry_fetch_go]
  | succ n ih =>
    intro attempt
    simp only [retry_fetch_go]
    cases houtcome : outcomes attempt with
    | timeoutErr => simp
    | sendErr msg' => simp
    | response ok body =>
      cases ok with
      | true => simp
      | false =>
        simp only [Bool.false_eq_true, if_false]
        exact le_trans (ih (attempt + 1)) (by omega)

/-- C8: every fetch makes at most 3 request attempts; three consecutive
non-success responses exhaust the loop into the recoverable error strings of
`get_alpaca_news` and `do_request` with backoff delays of 2 then 4 seconds;
a success response on any attempt (after only non-success responses) returns
its decoded payload. -/
theorem c8_retry_discipline (α : Type) (outcomes : ℕ → FetchOutcome α) :
    (do_request outcomes).attempts_made ≤ 3 ∧
    (get_alpaca_news outcomes).attempts_made ≤ 3 ∧
    ((∀ i < 3, ∃ body, outcomes i = .response false body) →
      (do_request outcomes).result = .error "Failed to fetch options after all retry attempts" ∧
      (get_alpaca_news outcomes).result = .error "Failed to fetch news after all retry attempts" ∧
      (do_request outcomes).backoff_delays = [2, 4]) ∧
    (∀ i < 3, ∀ payload, (∀ j < i, ∃ body, outcomes j = .response false body) →
      outcomes i = .response true (.ok payload) →
      (do_request outcomes).result = .ok payload) := by
  refine ⟨retry_fetch_go_attempts outcomes _ 3 0, retry_fetch_go_attempts outcomes _ 3 0,
    ?_, ?_⟩
  · intro hfail
    obtain ⟨b0, h0⟩ := hfail 0 (by norm_num)
    obtain ⟨b1, h1⟩ := hfail 1 (by norm_num)
    obtain ⟨b2, h2⟩ := hfail 2 (by norm_num)
    refine ⟨?_, ?_, ?_⟩ <;>
      simp [do_request, get_alpaca_news, retry_fetch_go, h0, h1, h2]
  · intro i hi payload hprev hsucc
    interval_cases i
    · simp [do_request, retry_fetch_go, hsucc]
    · obtain ⟨b0, h0⟩ := hprev 0 (by norm_num)
      simp [do_request, retry_fetch_go, h0, hsucc]
    · obtain ⟨b0, h0⟩ := hprev 0 (by norm_num)
      obtain ⟨b1, h1⟩ := hprev 1 (by norm_num)
      simp [do_request, retry_fetch_go, h0, h1, hsucc]

/-- C8 witness: on a stream of non-success responses, `do_request` makes at
most 3 attempts, sleeps 2 then 4 seconds, and returns the recoverable error
string. -/
theorem c8_retry_discipline_witness :
    (do_request always_fail).attempts_made ≤ 3 ∧
    (do_request always_fail).result =
      .error "Failed to fetch options after all retry attempts" ∧
    (do_request always_fail).backoff_delays = [2, 4] := by
  have h := c8_retry_discipline ℕ always_fail
  have hfail : ∀ i < 3, ∃ body, always_fail i = .response false body :=
    fun i _ => ⟨.error "500", rfl⟩
  exact ⟨h.1, (h.2.2.1 hfail).1, (h.2.2.1 hfail).2.2⟩

/-- C10: on an empty trading-signal list, `calculate_risk_metrics` divides by
the zero list length, so `portfolio_var` is non-finite (NaN) and the NaN
average volatility falls through to the HIGH regime, while
`calculate_market_summary` guards the empty case and returns its 0.0 / 0.5
defaults (risk level MEDIUM, zero confidence and position size). -/
theorem c10_empty_batch_division :
    (calculate_risk_metrics []).portfolio_var = none ∧
    (calculate_risk_metrics []).volatility_regime = "HIGH" ∧
    (calculate_market_summary [] [] "t" 0).overall_confidence = 0 ∧
    (calculate_market_summary [] [] "t" 0).risk_level = "MEDIUM" ∧
    (calculate_market_summary [] [] "t" 0).recommended_position_size = 0 := by
  with_unfolding_all decide

/-- C4 (the claim fails): the contract key AB defeats every parsing strategy,
and the strike parser indeed returns 0, but the expiration parser does not
return an empty string: its final scan visits index 0 of the inclusive range
`0 ..= len.saturating_sub(6)` and slices the two-character key out of bounds —
a panic (`none`), not a default return. -/
theorem c4_short_key_panics :
    parse_strike_price_from_contract_key ['A', 'B'] = 0 ∧
    parse_expiration_date_from_contract_key ['A', 'B'] = none := by
  decide

/-- C2 (the claim fails): a non-positive entry price does return `None`
without a crash, but an entry price above zero does not guarantee a metrics
value: with ask 1 and the two-character contract key AB, the time-to-expiry
computation panics inside `parse_expiration_date_from_contract_key`. -/
theorem c2_entry_price_contract :
    calculate_option_financial_metrics no_price_contract no_dates 0.045 = .value none ∧
    short_key_contract.latestQuote_ap = some 1 ∧
    calculate_option_financial_metrics short_key_contract no_dates 0.045 = .crash := by
  decide

/-- C3 counterexample: two identical candidate contracts score the same
positive value (2), and the slot that is emitted is the leap slot, not the
short-term slot the claim promises. -/
theorem c3_tie_emits_leap :
    calculate_option_score tie_contract 0 0 = .value 2 ∧ (0 : ℚ) < 2 ∧
    analyze_ticker_options_select (some tie_contract) (some tie_contract) 0 0 =
      .value [⟨"leap", tie_contract, 2,
        calculate_undervalued_indicators tie_contract 0 0⟩] ∧
    "leap" ≠ "short_term" := by
  refine ⟨by with_unfolding_all decide, by norm_num, by with_unfolding_all decide, by decide⟩

/-- C3 (amended): with both candidate slots present, `analyze_ticker_options`
emits at most one entry; the short-term slot is emitted when its score is
strictly higher, and the leap slot is emitted whenever its score is positive
and at least the short-term score — in particular an exact positive tie emits
the leap slot, not the short-term slot. -/
theorem c3_best_slot_selection (cs cl : Contract) (spot composite : ℚ)
    (entries : List OptionAnalysis) (ss ls : ℚ)
    (hsel : analyze_ticker_options_select (some cs) (some cl) spot composite = .value entries)
    (hss : calculate_option_score cs spot composite = .value ss)
    (hls : calculate_option_score cl spot composite = .value ls) :
    entries.length ≤ 1 ∧
    (ls < ss →
      entries = [⟨"short_term", cs, ss, calculate_undervalued_indicators cs spot composite⟩]) ∧
    (ss ≤ ls → 0 < ls →
      entries = [⟨"leap", cl, ls, calculate_undervalued_indicators cl spot composite⟩]) := by
  simp only [analyze_ticker_options_select, hss, hls] at hsel
  injection hsel with hsel
  subst hsel
  refine ⟨?_, ?_, ?_⟩
  · split_ifs <;> simp
  · intro hlt
    rw [if_pos hlt]
  · intro hle hpos
    rw [if_neg (not_lt.mpr hle), if_pos hpos]

/-- C3 witness: with a volume-5000 short-term candidate (score 5) against a
volume-2000 leap candidate (score 2), the strictly higher-scoring short-term
slot is the single emitted entry. -/
theorem c3_best_slot_selection_witness :
    analyze_ticker_options_select (some big_volume_contract) (some tie_contract) 0 0 =
      .value [⟨"short_term", big_volume_contract, 5,
        calculate_undervalued_indicators big_volume_contract 0 0⟩] := by
  obtain ⟨entries, hsel⟩ :
      ∃ entries, analyze_ticker_options_select (some big_volume_contract)
        (some tie_contract) 0 0 = .value entries := ⟨_, rfl⟩
  have h := (c3_best_slot_selection big_volume_contract tie_contract 0 0 entries 5 2 hsel
    (by with_unfolding_all decide) (by with_unfolding_all decide)).2.1 (by norm_num)
  exact h ▸ hsel

lemma digitChar_isDigit {n : ℕ} (h : n < 10) : (digitChar n).isDigit = true := by
  interval_cases n <;> decide

lemma digitChar_toNat {n : ℕ} (h : n < 10) : (digitChar n).toNat - 48 = n := by
  interval_cases n <;> decide

lemma isDigit_ne_plus {c : Char} (h : c.isDigit = true) : c ≠ '+' := by
  intro hc
  subst hc
  exact absurd h (by decide)

lemma padNum_length (w : ℕ) : ∀ n, (padNum w n).length = w := by
  induction w with
  | zero => intro n; rfl
  | succ v ih => intro n; simp [padNum, ih]

lemma padNum_all_digits (w : ℕ) : ∀ n, ∀ c ∈ padNum w n, c.isDigit = true := by
  induction w with
  | zero => intro n c hc; simp [padNum] at hc
  | succ v ih =>
    intro n c hc
    simp only [padNum, List.mem_append, List.mem_singleton] at hc
    rcases hc with hc | hc
    · exact ih (n / 10) c hc
    · subst hc; exact digitChar_isDigit (Nat.mod_lt n (by norm_num))

lemma digitsToNat_append_digit (xs : List Char) (c : Char) :
    digitsToNat (xs ++ [c]) = 10 * digitsToNat xs + (c.toNat - 48) := by
  simp [digitsToNat, List.foldl_append]

lemma digitsToNat_padNum (w : ℕ) : ∀ n, n < 10 ^ w → digitsToNat (padNum w n) = n := by
  induction w with
  | zero =>
    intro n hn
    have : n = 0 := by simpa using hn
    subst this
    rfl
  | succ v ih =>
    intro n hn
    have hdiv : n / 10 < 10 ^ v := by
      rw [Nat.div_lt_iff_lt_mul (by norm_num)]
      calc n < 10 ^ (v + 1) := hn
        _ = 10 ^ v * 10 := by ring
    have hmod := Nat.mod_lt n (y := 10) (by norm_num)
    rw [padNum, digitsToNat_append_digit, ih (n / 10) hdiv, digitChar_toNat hmod]
    omega

lemma stripPlus_of_digits {l : List Char} (h : ∀ c ∈ l, c.isDigit = true) :
    stripPlus l = l := by
  cases l with
  | nil => rfl
  | cons c r =>
    simp only [stripPlus]
    rw [if_neg (isDigit_ne_plus (h c (List.mem_cons_self c r)))]

lemma parseU32?_padNum {w n : ℕ} (hw : 0 < w) (hn : n < 10 ^ w) (hsm : 10 ^ w ≤ 2 ^ 32) :
    parseU32? (padNum w n) = some n := by
  have hd := padNum_all_digits w n
  have hv := digitsToNat_padNum w n hn
  simp only [parseU32?, stripPlus_of_digits hd]
  rw [if_pos]
  · rw [hv]
  · refine ⟨?_, ?_, ?_⟩
    · intro hnil
      have := padNum_length w n
      rw [hnil] at this
      simp at this
      omega
    · exact List.all_eq_true.mpr hd
    · rw [hv]; omega

lemma lastN_append (a b : List Char) : lastN b.length (a ++ b) = b := by
  simp only [lastN, List.length_append]
  have h : a.length + b.length - b.length = a.length := by omega
  rw [h, List.drop_left]

lemma take_prefix_append (a b : List Char) : (a ++ b).take a.length = a :=
  List.take_left a b

/-- The strike half of the canonical round trip: the last 8 characters of the
encoded key are the zero-padded strike in thousandths, so the first strategy
of the strike parser fires. -/
lemma parse_strike_canonical (symbol : List Char) (yy mm dd : ℕ) (right : Char)
    {m : ℕ} (hm : m < 10 ^ 8) :
    parse_strike_price_from_contract_key (canonical_contract_key symbol yy mm dd right m) =
      (m : ℚ) / 1000 := by
  have hkey : canonical_contract_key symbol yy mm dd right m =
      (symbol ++ padNum 2 yy ++ padNum 2 mm ++ padNum 2 dd ++ [right]) ++ padNum 8 m := by
    simp [canonical_contract_key, List.append_assoc]
  have hlen : (canonical_contract_key symbol yy mm dd right m).length =
      symbol.length + 15 := by
    simp only [canonical_contract_key, List.length_append, padNum_length,
      List.length_cons, List.length_nil]
  have hlast : lastN 8 (canonical_contract_key symbol yy mm dd right m) = padNum 8 m := by
    have h := lastN_append (symbol ++ padNum 2 yy ++ padNum 2 mm ++ padNum 2 dd ++ [right])
      (padNum 8 m)
    rw [padNum_length] at h
    rw [hkey]
    exact h
  have hparse : parseU32? (lastN 8 (canonical_contract_key symbol yy mm dd right m)) =
      some m := by
    rw [hlast]
    exact parseU32?_padNum (by norm_num) hm (by norm_num)
  simp only [parse_strike_price_from_contract_key]
  rw [if_pos (by omega : 15 ≤ (canonical_contract_key symbol yy mm dd right m).length), hparse]

lemma drop_prefix_append (a b : List Char) : (a ++ b).drop a.length = b :=
  List.drop_left a b

lemma parseYMD_pads {yy mm dd : ℕ} (hyy : yy < 100) (hmm1 : 1 ≤ mm) (hmm2 : mm ≤ 12)
    (hdd1 : 1 ≤ dd) (hdd2 : dd ≤ 31) :
    parseYMD? (padNum 2 yy ++ padNum 2 mm ++ padNum 2 dd) = some (yy, mm, dd) := by
  have hlen2 : ∀ n : ℕ, (padNum 2 n).length = 2 := fun n => padNum_length 2 n
  have hp : ∀ {n : ℕ}, n < 100 → parseU32? (padNum 2 n) = some n := fun {n} h =>
    parseU32?_padNum (by norm_num) (by simpa using h) (by norm_num)
  have htake2 : (padNum 2 yy ++ padNum 2 mm ++ padNum 2 dd).take 2 = padNum 2 yy := by
    have h := take_prefix_append (padNum 2 yy) (padNum 2 mm ++ padNum 2 dd)
    rw [hlen2] at h
    rw [List.append_assoc]
    exact h
  have hdrop2 : (padNum 2 yy ++ padNum 2 mm ++ padNum 2 dd).drop 2 =
      padNum 2 mm ++ padNum 2 dd := by
    have h := drop_prefix_append (padNum 2 yy) (padNum 2 mm ++ padNum 2 dd)
    rw [hlen2] at h
    rw [List.append_assoc]
    exact h
  have htake2' : (padNum 2 mm ++ padNum 2 dd).take 2 = padNum 2 mm := by
    have h := take_prefix_append (padNum 2 mm) (padNum 2 dd)
    rw [hlen2] at h
    exact h
  have hdrop4 : (padNum 2 yy ++ padNum 2 mm ++ padNum 2 dd).drop 4 = padNum 2 dd := by
    have h := drop_prefix_append (padNum 2 yy ++ padNum 2 mm) (padNum 2 dd)
    have hl : (padNum 2 yy ++ padNum 2 mm).length = 4 := by
      simp [List.length_append, hlen2]
    rw [hl] at h
    exact h
  simp only [parseYMD?]
  rw [if_pos (by simp [List.length_append, hlen2])]
  rw [htake2, hdrop2, htake2', hdrop4, hp hyy, hp (by omega), hp (by omega)]
  exact if_pos ⟨hmm1, hmm2, hdd1, hdd2⟩

/-- The date half of the canonical round trip: the first positional strategy
(window 15 characters from the end, stopping 9 from the end) recovers exactly
the encoded YYMMDD. -/
lemma parse_expiration_canonical (symbol : List Char) {yy mm dd : ℕ} (right : Char) (m : ℕ)
    (hyy : yy < 100) (hmm1 : 1 ≤ mm) (hmm2 : mm ≤ 12) (hdd1 : 1 ≤ dd) (hdd2 : dd ≤ 31) :
    parse_expiration_date_from_contract_key (canonical_contract_key symbol yy mm dd right m) =
      some (formatDate (2000 + yy) mm dd) := by
  have hlen : (canonical_contract_key symbol yy mm dd right m).length =
      symbol.length + 15 := by
    simp only [canonical_contract_key, List.length_append, padNum_length,
      List.length_cons, List.length_nil]
  have hdrop : (canonical_contract_key symbol yy mm dd right m).drop symbol.length =
      padNum 2 yy ++ (padNum 2 mm ++ (padNum 2 dd ++ ([right] ++ padNum 8 m))) := by
    have h := drop_prefix_append symbol
      (padNum 2 yy ++ (padNum 2 mm ++ (padNum 2 dd ++ ([right] ++ padNum 8 m))))
    rw [show canonical_contract_key symbol yy mm dd right m =
      symbol ++ (padNum 2 yy ++ (padNum 2 mm ++ (padNum 2 dd ++ ([right] ++ padNum 8 m))))
      from by simp [canonical_contract_key, List.append_assoc]]
    exact h
  have htake : (padNum 2 yy ++ (padNum 2 mm ++ (padNum 2 dd ++ ([right] ++ padNum 8 m)))).take 6
      = padNum 2 yy ++ padNum 2 mm ++ padNum 2 dd := by
    have h := take_prefix_append (padNum 2 yy ++ padNum 2 mm ++ padNum 2 dd)
      ([right] ++ padNum 8 m)
    have hl : (padNum 2 yy ++ padNum 2 mm ++ padNum 2 dd).length = 6 := by
      simp [List.length_append, padNum_length]
    rw [hl] at h
    rw [← h]
    simp [List.append_assoc]
  have htry : tryDateAt (canonical_contract_key symbol yy mm dd right m) 15 9 =
      some (formatDate (2000 + yy) mm dd) := by
    simp only [tryDateAt, hlen]
    rw [if_pos (by omega)]
    rw [if_pos (by constructor <;> omega)]
    have e1 : symbol.length + 15 - 15 = symbol.length := by omega
    have e2 : symbol.length + 15 - 9 - symbol.length = 6 := by omega
    rw [e1, e2, hdrop, htake]
    rw [if_pos (by simp [List.length_append, padNum_length])]
    rw [parseYMD_pads hyy hmm1 hmm2 hdd1 hdd2]
  simp only [parse_expiration_date_from_contract_key, htry]
  rfl

/-- C5: encoding any valid date (month 1-12, day 1-31, two-digit year) and any
non-negative strike below the 8-digit capacity in the canonical scheme
SYMBOL ++ YYMMDD ++ right ++ 8-digit-thousandths, then decoding with the two
codec functions, recovers the date 2000+yy-mm-dd exactly and the strike to
within one thousandth of a dollar. -/
theorem c5_canonical_roundtrip (symbol : List Char) (yy mm dd : ℕ) (right : Char)
    (strike : ℚ) (hyy : yy < 100) (hmm1 : 1 ≤ mm) (hmm2 : mm ≤ 12) (hdd1 : 1 ≤ dd)
    (hdd2 : dd ≤ 31) (hstrike : 0 ≤ strike) (hsize : strike < 100000) :
    parse_strike_price_from_contract_key
        (canonical_contract_key symbol yy mm dd right (⌊strike * 1000⌋.toNat)) =
      ((⌊strike * 1000⌋.toNat : ℕ) : ℚ) / 1000 ∧
    |((⌊strike * 1000⌋.toNat : ℕ) : ℚ) / 1000 - strike| ≤ 1 / 1000 ∧
    parse_expiration_date_from_contract_key
        (canonical_contract_key symbol yy mm dd right (⌊strike * 1000⌋.toNat)) =
      some (formatDate (2000 + yy) mm dd) := by
  have h0 : (0 : ℚ) ≤ strike * 1000 := by positivity
  have hfl0 : 0 ≤ ⌊strike * 1000⌋ := Int.floor_nonneg.mpr h0
  have hflle : ((⌊strike * 1000⌋ : ℤ) : ℚ) ≤ strike * 1000 := Int.floor_le _
  have hfllt : strike * 1000 < (⌊strike * 1000⌋ : ℚ) + 1 := Int.lt_floor_add_one _
  have hm : ⌊strike * 1000⌋.toNat < 10 ^ 8 := by
    have hz : ⌊strike * 1000⌋ < (10 ^ 8 : ℤ) := by
      have : ((⌊strike * 1000⌋ : ℤ) : ℚ) < ((10 ^ 8 : ℤ) : ℚ) := by
        push_cast
        linarith
      exact_mod_cast this
    omega
  have hcast : ((⌊strike * 1000⌋.toNat : ℕ) : ℚ) = (⌊strike * 1000⌋ : ℚ) := by
    exact_mod_cast congrArg (Int.cast : ℤ → ℚ) (Int.toNat_of_nonneg hfl0)
  refine ⟨parse_strike_canonical symbol yy mm dd right hm, ?_,
    parse_expiration_canonical symbol right _ hyy hmm1 hmm2 hdd1 hdd2⟩
  rw [hcast, abs_le]
  constructor <;> linarith

/-- C5 witness: the canonical key AAPL240119C00150000 decodes back to the
date 2024-01-19 and the strike 150 (within a thousandth). -/
theorem c5_canonical_roundtrip_witness :
    parse_strike_price_from_contract_key
        (canonical_contract_key "AAPL".data 24 1 19 'C' (⌊(150 : ℚ) * 1000⌋.toNat)) =
      ((⌊(150 : ℚ) * 1000⌋.toNat : ℕ) : ℚ) / 1000 ∧
    |((⌊(150 : ℚ) * 1000⌋.toNat : ℕ) : ℚ) / 1000 - 150| ≤ 1 / 1000 ∧
    parse_expiration_date_from_contract_key
        (canonical_contract_key "AAPL".data 24 1 19 'C' (⌊(150 : ℚ) * 1000⌋.toNat)) =
      some (formatDate (2000 + 24) 1 19) :=
  c5_canonical_roundtrip "AAPL".data 24 1 19 'C' 150 (by norm_num) (by norm_num)
    (by norm_num) (by norm_num) (by norm_num) (by norm_num) (by norm_num)

lemma find_sorted_spec (symbol : String) :
    ∀ l : List SentimentAnalysis,
      List.Sorted (fun a b => b.confidence ≤ a.confidence) l →
      ((l.find? (fun n => n.symbols.contains symbol) = none →
          ∀ y ∈ l, y.symbols.contains symbol = false) ∧
        (∀ x, l.find? (fun n => n.symbols.contains symbol) = some x →
          x.symbols.contains symbol = true ∧
          ∀ y ∈ l, y.symbols.contains symbol = true → y.confidence ≤ x.confidence)) := by
  intro l
  induction l with
  | nil =>
    intro _
    refine ⟨fun _ y hy => absurd hy (List.not_mem_nil y), fun x hx => by simp at hx⟩
  | cons a t ih =>
    intro hsort
    have hrel := (List.sorted_cons.mp hsort).1
    have htail := (List.sorted_cons.mp hsort).2
    by_cases hpa : a.symbols.contains symbol = true
    · constructor
      · intro hnone
        rw [@List.find?_cons_of_pos _ (fun n => n.symbols.contains symbol) a t hpa] at hnone
        exact absurd hnone (by simp)
      · intro x hx
        rw [@List.find?_cons_of_pos _ (fun n => n.symbols.contains symbol) a t hpa] at hx
        injection hx with hx
        subst hx
        refine ⟨hpa, fun y hy _ => ?_⟩
        rcases List.mem_cons.mp hy with hya | hyt
        · subst hya; exact le_refl _
        · exact hrel y hyt
    · have hfind : (a :: t).find? (fun n => n.symbols.contains symbol) =
          t.find? (fun n => n.symbols.contains symbol) :=
        @List.find?_cons_of_neg _ (fun n => n.symbols.contains symbol) a t hpa
      constructor
      · intro hnone y hy
        rw [hfind] at hnone
        rcases List.mem_cons.mp hy with hya | hyt
        · subst hya; simpa using hpa
        · exact (ih htail).1 hnone y hyt
      · intro x hx
        rw [hfind] at hx
        obtain ⟨hpx, hbound⟩ := (ih htail).2 x hx
        refine ⟨hpx, fun y hy hpy => ?_⟩
        rcases List.mem_cons.mp hy with hya | hyt
        · subst hya; exact absurd hpy hpa
        · exact hbound y hyt hpy

/-- C9: the sentiment score attached to a symbol's trading signal is the
confidence of the highest-confidence headline that mentions the symbol (the
lookup takes the first match of the descending-confidence-sorted sentiment
list), and defaults to 0.5 when no headline mentions it. -/
theorem c9_sentiment_lookup (news : List SentimentAnalysis) (symbol : String) :
    ((∀ n ∈ news, n.symbols.contains symbol = false) →
      lookup_sentiment news symbol = 0.5) ∧
    (∀ n ∈ news, n.symbols.contains symbol = true →
      ∃ x, x ∈ news ∧ x.symbols.contains symbol = true ∧
        lookup_sentiment news symbol = x.confidence ∧
        ∀ y ∈ news, y.symbols.contains symbol = true → y.confidence ≤ x.confidence) := by
  have hsort : List.Sorted (fun a b => b.confidence ≤ a.confidence) (sort_news news) :=
    List.sorted_insertionSort _ news
  have hperm : List.Perm (sort_news news) news := List.perm_insertionSort _ news
  have hmem : ∀ z, z ∈ sort_news news ↔ z ∈ news := fun z => hperm.mem_iff
  have hspec := find_sorted_spec symbol (sort_news news) hsort
  constructor
  · intro hnone
    cases hfind : (sort_news news).find? (fun n => n.symbols.contains symbol) with
    | none =>
      simp only [lookup_sentiment]
      rw [hfind]
      rfl
    | some x =>
      have hx := (hspec.2 x hfind).1
      have hxn : x ∈ news := (hmem x).mp (List.mem_of_find?_eq_some hfind)
      rw [hnone x hxn] at hx
      cases hx
  · intro n hn hpn
    cases hfind : (sort_news news).find? (fun n => n.symbols.contains symbol) with
    | none =>
      have := hspec.1 hfind n ((hmem n).mpr hn)
      rw [hpn] at this
      cases this
    | some x =>
      obtain ⟨hpx, hbound⟩ := hspec.2 x hfind
      refine ⟨x, (hmem x).mp (List.mem_of_find?_eq_some hfind), hpx, ?_, ?_⟩
      · simp only [lookup_sentiment]
        rw [hfind]
        rfl
      · exact fun y hy hpy => hbound y ((hmem y).mpr hy) hpy

/-- C9 witness: for the fixture news list, the lookup for XYZ returns the
higher of the two matching confidences, 0.95. -/
theorem c9_sentiment_lookup_witness :
    (∃ x, x ∈ fixture_news ∧ x.symbols.contains "XYZ" = true ∧
      lookup_sentiment fixture_news "XYZ" = x.confidence ∧
      ∀ y ∈ fixture_news, y.symbols.contains "XYZ" = true →
        y.confidence ≤ x.confidence) ∧
    lookup_sentiment fixture_news "XYZ" = 0.95 := by
  refine ⟨(c9_sentiment_lookup fixture_news "XYZ").2
    ⟨"h1", ["XYZ", "XY"], "positive", 0.95⟩ (by with_unfolding_all decide)
    (by decide), by with_unfolding_all decide⟩

lemma clamp01_nonneg (x : ℚ) : 0 ≤ min (max x 0) 1 :=
  le_min (le_max_right x 0) zero_le_one

lemma clamp01_le_one (x : ℚ) : min (max x 0) 1 ≤ 1 :=
  min_le_right _ _

lemma calculate_dynamic_risk_score_nonneg (iv mdd : ℚ) (v oi : ℕ) (t : ℚ) :
    0 ≤ calculate_dynamic_risk_score iv mdd v oi t :=
  clamp01_nonneg _

lemma calculate_dynamic_risk_score_le_one (iv mdd : ℚ) (v oi : ℕ) (t : ℚ) :
    calculate_dynamic_risk_score iv mdd v oi t ≤ 1 :=
  clamp01_le_one _

lemma calculate_dynamic_confidence_nonneg (s o c : ℚ) (v oi : ℕ) :
    0 ≤ calculate_dynamic_confidence s o c v oi :=
  clamp01_nonneg _

lemma calculate_dynamic_confidence_le_one (s o c : ℚ) (v oi : ℕ) :
    calculate_dynamic_confidence s o c v oi ≤ 1 :=
  clamp01_le_one _

lemma classify_sector_risk_nonneg (symbol : String) :
    0 ≤ (classify_sector_risk symbol).1 := by
  simp only [classify_sector_risk]
  split_ifs <;> norm_num

lemma fst_rule_nonneg {c : Prop} [Decidable c] {a b : ℚ × List String}
    (ha : 0 ≤ a.1) (hb : 0 ≤ b.1) : 0 ≤ (if c then a else b).1 := by
  split_ifs <;> assumption

lemma assess_fundamental_risk_nonneg (symbol : String) (contract : Contract) :
    0 ≤ (assess_fundamental_risk symbol contract).1 := by
  have hs := classify_sector_risk_nonneg symbol
  simp only [assess_fundamental_risk]
  refine le_min ?_ (by norm_num)
  refine add_nonneg (add_nonneg (add_nonneg (add_nonneg (add_nonneg ?_ ?_) ?_) ?_) ?_) ?_
  · exact fst_rule_nonneg (by norm_num) (fst_rule_nonneg (by norm_num) (by norm_num))
  · exact fst_rule_nonneg (by norm_num) (fst_rule_nonneg (by norm_num) (by norm_num))
  · exact fst_rule_nonneg (by norm_num) (by norm_num)
  · exact hs
  · exact fst_rule_nonneg (by norm_num) (fst_rule_nonneg (by norm_num) (by norm_num))
  · exact fst_rule_nonneg (by norm_num) (by norm_num)

lemma assess_fundamental_risk_le_one (symbol : String) (contract : Contract) :
    (assess_fundamental_risk symbol contract).1 ≤ 1 := by
  simp only [assess_fundamental_risk]
  exact min_le_right _ _

lemma pos_clamp_cases (x : ℚ) :
    (if 0 < x then min (max x 0.02) 0.25 else 0) = 0 ∨
      (0.02 ≤ (if 0 < x then min (max x 0.02) 0.25 else 0) ∧
        (if 0 < x then min (max x 0.02) 0.25 else 0) ≤ 0.25) := by
  split_ifs with h
  · exact Or.inr ⟨le_min (le_max_right _ _) (by norm_num), min_le_right _ _⟩
  · exact Or.inl rfl

lemma kelly_block_cases (moneyness expected_return volume time_to_expiry : ℚ) :
    kelly_block moneyness expected_return volume time_to_expiry = 0 ∨
      (0.02 ≤ kelly_block moneyness expected_return volume time_to_expiry ∧
        kelly_block moneyness expected_return volume time_to_expiry ≤ 0.25) :=
  pos_clamp_cases _

lemma calculate_dynamic_var_95_nonneg (vol mr t sq : ℚ) (hsq : 0 ≤ sq) :
    0 ≤ calculate_dynamic_var_95 vol mr t sq := by
  simp only [calculate_dynamic_var_95]
  split_ifs with h1 h2
  · exact le_refl 0
  · push_neg at h1
    have := mul_nonneg (le_of_lt h1.1) hsq
    linarith
  · exact abs_nonneg _

lemma ite_kelly_cases (cond : Prop) [Decidable cond] (a b c d : ℚ) :
    (if cond then kelly_block a b c d else 0) = 0 ∨
      (0.02 ≤ (if cond then kelly_block a b c d else 0) ∧
        (if cond then kelly_block a b c d else 0) ≤ 0.25) := by
  split_ifs
  · exact kelly_block_cases a b c d
  · exact Or.inl rfl

lemma metrics_value_kelly (contract : Contract) (dd : List Char → Option ℚ) (rfr : ℚ)
    (m : MetricsResult)
    (h : calculate_option_financial_metrics contract dd rfr = .value (some m)) :
    m.kelly_fraction = 0 ∨ (0.02 ≤ m.kelly_fraction ∧ m.kelly_fraction ≤ 0.25) := by
  simp only [calculate_option_financial_metrics] at h
  split at h
  · exact absurd h (by simp)
  · split at h
    · exact absurd h (by simp)
    · injection h with h
      injection h with h
      subst h
      exact ite_kelly_cases _ _ _ _ _

lemma confidence_penalty_bounds (base fund : ℚ) (h0 : 0 ≤ base) (h1 : base ≤ 1) :
    0 ≤ (if 0.7 < fund then base * 0.3
        else if 0.5 < fund then base * 0.6
        else if 0.3 < fund then base * 0.8
        else base) ∧
      (if 0.7 < fund then base * 0.3
        else if 0.5 < fund then base * 0.6
        else if 0.3 < fund then base * 0.8
        else base) ≤ 1 := by
  split_ifs <;> constructor <;> nlinarith

lemma convert_value_bounds (symbol : String) (oa : OptionAnalysis) (sent : ℚ)
    (overall : String) (dd : List Char → Option ℚ) (rfr sq : ℚ)
    (gk : ℚ → ℚ → ℚ → ℚ → Bool → ℚ × ℚ × ℚ × ℚ) (s : TradingSignal) (hsq : 0 ≤ sq)
    (h : convert_to_trading_signal symbol oa sent overall dd rfr sq gk = .value s) :
    0 ≤ s.confidence ∧ s.confidence ≤ 1 ∧ 0 ≤ s.risk_score ∧ s.risk_score ≤ 1 ∧
      0 ≤ s.financial_metrics.kelly_fraction ∧ s.financial_metrics.kelly_fraction ≤ 1 ∧
      0 ≤ s.financial_metrics.var_95 := by
  simp only [convert_to_trading_signal] at h
  split at h
  · exact absurd h (by simp)
  · injection h with h
    subst h
    refine ⟨?_, ?_, ?_, ?_, ?_, ?_, ?_⟩
    · exact (confidence_penalty_bounds _ _
        (calculate_dynamic_confidence_nonneg _ _ _ _ _)
        (calculate_dynamic_confidence_le_one _ _ _ _ _)).1
    · exact (confidence_penalty_bounds _ _
        (calculate_dynamic_confidence_nonneg _ _ _ _ _)
        (calculate_dynamic_confidence_le_one _ _ _ _ _)).2
    · refine le_min (add_nonneg ?_ ?_) (by norm_num)
      · exact mul_nonneg (calculate_dynamic_risk_score_nonneg _ _ _ _ _) (by norm_num)
      · exact mul_nonneg (assess_fundamental_risk_nonneg _ _) (by norm_num)
    · exact min_le_right _ _
    · dsimp only
      split
      · next metrics heq =>
        rcases metrics_value_kelly _ _ _ _ heq with hk | hk
        · dsimp only; rw [hk]
        · dsimp only; linarith [hk.1]
      · next heq _ => dsimp only; norm_num
    · dsimp only
      split
      · next metrics heq =>
        rcases metrics_value_kelly _ _ _ _ heq with hk | hk
        · dsimp only; rw [hk]; norm_num
        · dsimp only; linarith [hk.2]
      · next heq _ => dsimp only; norm_num
    · dsimp only
      split
      · next metrics heq =>
        dsimp only
        exact calculate_dynamic_var_95_nonneg _ _ _ _ hsq
      · next heq _ => dsimp only; norm_num

/-- C6: every trading signal produced by `convert_to_trading_signal` has
confidence and risk score in the unit interval; the Kelly fraction computed by
`calculate_option_financial_metrics` is zero or clamped into [0.02, 0.25]
(hence in [0,1]); and `calculate_dynamic_var_95` is never negative. -/
theorem c6_score_invariants (symbol : String) (oa : OptionAnalysis) (sent : ℚ)
    (overall : String) (dd : List Char → Option ℚ) (rfr sq : ℚ)
    (gk : ℚ → ℚ → ℚ → ℚ → Bool → ℚ × ℚ × ℚ × ℚ) (hsq : 0 ≤ sq) :
    (∀ s, convert_to_trading_signal symbol oa sent overall dd rfr sq gk = .value s →
      0 ≤ s.confidence ∧ s.confidence ≤ 1 ∧ 0 ≤ s.risk_score ∧ s.risk_score ≤ 1 ∧
        0 ≤ s.financial_metrics.kelly_fraction ∧ s.financial_metrics.kelly_fraction ≤ 1 ∧
        0 ≤ s.financial_metrics.var_95) ∧
    (∀ (c : Contract) (m : MetricsResult),
      calculate_option_financial_metrics c dd rfr = .value (some m) →
      (m.kelly_fraction = 0 ∨ (0.02 ≤ m.kelly_fraction ∧ m.kelly_fraction ≤ 0.25)) ∧
        0 ≤ m.kelly_fraction ∧ m.kelly_fraction ≤ 1) ∧
    (∀ vol mr t : ℚ, 0 ≤ calculate_dynamic_var_95 vol mr t sq) := by
  refine ⟨fun s h => convert_value_bounds symbol oa sent overall dd rfr sq gk s hsq h,
    fun c m h => ?_, fun vol mr t => calculate_dynamic_var_95_nonneg vol mr t sq hsq⟩
  rcases metrics_value_kelly c dd rfr m h with hk | hk
  · exact ⟨Or.inl hk, by rw [hk], by rw [hk]; norm_num⟩
  · exact ⟨Or.inr hk, by linarith [hk.1], by linarith [hk.2]⟩

/-- C6 witness: the fixture signal has confidence and risk score in [0,1],
Kelly fraction and VaR bounds hold at concrete inputs. -/
theorem c6_score_invariants_witness :
    (∃ s, convert_to_trading_signal "XY" fixture_option_analysis 0.95 "call" no_dates
        0.045 0 zero_greeks = .value s ∧
      0 ≤ s.confidence ∧ s.confidence ≤ 1 ∧ 0 ≤ s.risk_score ∧ s.risk_score ≤ 1) ∧
    0 ≤ calculate_dynamic_var_95 1 0 30 0 := by
  have h := c6_score_invariants "XY" fixture_option_analysis 0.95 "call" no_dates
    0.045 0 zero_greeks (le_refl 0)
  obtain ⟨s, hs⟩ : ∃ s, convert_to_trading_signal "XY" fixture_option_analysis 0.95 "call"
      no_dates 0.045 0 zero_greeks = .value s := ⟨_, rfl⟩
  obtain ⟨h1, h2, h3, h4, _⟩ := h.1 s hs
  exact ⟨⟨s, hs, h1, h2, h3, h4⟩, h.2.2 1 0 30⟩

/-- C1: every signal in the final trading-signal batch satisfies
risk_score < 0.9 and confidence > 0.1, and any signal whose risk score is at
least 0.9 or whose confidence is at most 0.1 is excluded from the batch
entirely. -/
theorem c1_admission_gate (options_analysis : List SymbolOptionsAnalysis)
    (news : List SentimentAnalysis) (overall : String) (dd : List Char → Option ℚ)
    (rfr : ℚ) (sq : Contract → ℚ) (gk : ℚ → ℚ → ℚ → ℚ → Bool → ℚ × ℚ × ℚ × ℚ)
    (l : List TradingSignal)
    (h : build_trading_signals options_analysis news overall dd rfr sq gk = .value l) :
    (∀ s ∈ l, s.risk_score < 0.9 ∧ 0.1 < s.confidence) ∧
    (∀ s : TradingSignal, 0.9 ≤ s.risk_score ∨ s.confidence ≤ 0.1 → s ∉ l) := by
  simp only [build_trading_signals] at h
  split at h
  · exact absurd h (by simp)
  · injection h with h
    subst h
    constructor
    · intro s hs
      have := (List.mem_filter.mp hs).2
      rw [Bool.and_eq_true, decide_eq_true_eq, decide_eq_true_eq] at this
      exact this
    · intro s hbad hs
      have := (List.mem_filter.mp hs).2
      rw [Bool.and_eq_true, decide_eq_true_eq, decide_eq_true_eq] at this
      rcases hbad with hb | hb
      · exact absurd this.1 (not_lt.mpr hb)
      · exact absurd this.2 (not_lt.mpr hb)

/-- C1 witness: the fixture batch is non-empty and every signal in it passes
the admission gate. -/
theorem c1_admission_gate_witness :
    ∃ l, build_trading_signals [fixture_symbol_analysis] fixture_news "call" no_dates
        0.045 (fun _ => 0) zero_greeks = .value l ∧ l ≠ [] ∧
      ∀ s ∈ l, s.risk_score < 0.9 ∧ 0.1 < s.confidence := by
  obtain ⟨l, hl⟩ : ∃ l, build_trading_signals [fixture_symbol_analysis] fixture_news "call"
      no_dates 0.045 (fun _ => 0) zero_greeks = .value l := ⟨_, rfl⟩
  refine ⟨l, hl, ?_, (c1_admission_gate _ _ _ _ _ _ _ l hl).1⟩
  intro hnil
  rw [hnil] at hl
  revert hl
  with_unfolding_all decide
